import Mathlib

/-!
# Instance limits table (`vpc/limits.go`)

A shallow embedding of the static table `interfaceLimits` and of its accessors
`getLimits`, `GetMaxInterfaces`, `GetMaxIPv4Addresses`, `getMaxNetworkMbps` and
`GetMaxNetworkbps`.

Modelling choices:

* a Go `string` is a Lean `String`; the separator `"."` is the single character `'.'`;
* a Go `map` literal is an association list searched with `List.lookup` (the keys of a Go
  map literal are pairwise distinct, so the first match is the only match);
* a Go `int` is an `Int`, a Go `uint64` is a `Nat` reduced modulo `2 ^ 64` after every
  arithmetic step;
* a Go panic is the `error` side of `Except Panic`.
-/

deriving instance DecidableEq for Except

namespace vpc

/-- The record `limits` of the source: four `int` fields, the throughput in Mbps. -/
structure limits where
  interfaces : Int
  ipAddressesPerInterface : Int
  ip6AddressesPerInterface : Int
  networkThroughput : Int
deriving DecidableEq

/-- The ways in which `getLimits` can panic.

* `indexOutOfRange i n`: the Go runtime panic of the slice expression `familyAndSubtype[i]`
  on a slice of length `n` (`index out of range [i] with length n`);
* `unknownFamily family`: `panic(fmt.Sprint("Unknown family: ", family))`;
* `unknownSubtype subtype`: `panic(fmt.Sprint("Unknown subtype for family: ", subtype))`. -/
inductive Panic where
  | indexOutOfRange (index length : Nat)
  | unknownFamily (family : String)
  | unknownSubtype (subtype : String)
deriving DecidableEq

/-- The table `interfaceLimits`: family, then subtype, then the record. -/
def interfaceLimits : List (String × List (String × limits)) :=
  [ ("m4",
      [ ("large",
          { interfaces := 2, ipAddressesPerInterface := 10,
            ip6AddressesPerInterface := 10, networkThroughput := 100 }),
        ("xlarge",
          { interfaces := 4, ipAddressesPerInterface := 15,
            ip6AddressesPerInterface := 15, networkThroughput := 1000 }),
        ("2large",
          { interfaces := 4, ipAddressesPerInterface := 15,
            ip6AddressesPerInterface := 15, networkThroughput := 1000 }),
        ("4xlarge",
          { interfaces := 8, ipAddressesPerInterface := 30,
            ip6AddressesPerInterface := 30, networkThroughput := 2000 }),
        ("10xlarge",
          { interfaces := 8, ipAddressesPerInterface := 30,
            ip6AddressesPerInterface := 30, networkThroughput := 10000 }),
        ("16xlarge",
          { interfaces := 8, ipAddressesPerInterface := 30,
            ip6AddressesPerInterface := 30, networkThroughput := 23000 }) ]),
    ("r4",
      [ ("large",
          { interfaces := 3, ipAddressesPerInterface := 10,
            ip6AddressesPerInterface := 10, networkThroughput := 1000 }),
        ("xlarge",
          { interfaces := 4, ipAddressesPerInterface := 15,
            ip6AddressesPerInterface := 15, networkThroughput := 1000 }),
        ("2large",
          { interfaces := 4, ipAddressesPerInterface := 15,
            ip6AddressesPerInterface := 15, networkThroughput := 2000 }),
        ("4xlarge",
          { interfaces := 8, ipAddressesPerInterface := 30,
            ip6AddressesPerInterface := 30, networkThroughput := 4000 }),
        ("8xlarge",
          { interfaces := 8, ipAddressesPerInterface := 30,
            ip6AddressesPerInterface := 30, networkThroughput := 9000 }),
        ("16xlarge",
          { interfaces := 15, ipAddressesPerInterface := 50,
            ip6AddressesPerInterface := 50, networkThroughput := 15000 }) ]),
    ("p2",
      [ ("xlarge",
          { interfaces := 4, ipAddressesPerInterface := 15,
            ip6AddressesPerInterface := 15, networkThroughput := 2000 }),
        ("8xlarge",
          { interfaces := 8, ipAddressesPerInterface := 30,
            ip6AddressesPerInterface := 30, networkThroughput := 6000 }),
        ("16xlarge",
          { interfaces := 8, ipAddressesPerInterface := 30,
            ip6AddressesPerInterface := 30, networkThroughput := 20000 }) ]) ]

/-- Cut a character sequence at every occurrence of `sep`: the result is the first segment
together with the list of the segments that follow it. -/
def splitChars (sep : Char) : List Char → List Char × List (List Char)
  | [] => ([], [])
  | c :: cs =>
    if c = sep then ([], (splitChars sep cs).1 :: (splitChars sep cs).2)
    else (c :: (splitChars sep cs).1, (splitChars sep cs).2)

/-- Go's `strings.Split(s, sep)` for a separator of one character: `s` is cut at every
occurrence of the separator, and a string with `n` separators yields `n + 1` segments
(possibly empty ones). -/
def Split (s : String) (sep : Char) : List String :=
  ((splitChars sep s.data).1 :: (splitChars sep s.data).2).map String.mk

/-- The function `getLimits`: both slice elements are read before the table is searched, so
an input without separator panics on `familyAndSubtype[1]`. -/
def getLimits (instanceType : String) : Except Panic limits :=
  let familyAndSubtype := Split instanceType '.'
  match familyAndSubtype[0]? with
  | none => .error (.indexOutOfRange 0 familyAndSubtype.length)
  | some family =>
    match familyAndSubtype[1]? with
    | none => .error (.indexOutOfRange 1 familyAndSubtype.length)
    | some subtype =>
      match interfaceLimits.lookup family with
      | none => .error (.unknownFamily family)
      | some subtypes =>
        match subtypes.lookup subtype with
        | none => .error (.unknownSubtype subtype)
        | some limits => .ok limits

/-- The function `GetMaxInterfaces`: `getLimits(instanceType).interfaces`. -/
def GetMaxInterfaces (instanceType : String) : Except Panic Int := do
  let l ← getLimits instanceType
  pure l.interfaces

/-- The function `GetMaxIPv4Addresses`: `getLimits(instanceType).ipAddressesPerInterface`. -/
def GetMaxIPv4Addresses (instanceType : String) : Except Panic Int := do
  let l ← getLimits instanceType
  pure l.ipAddressesPerInterface

/-- The function `getMaxNetworkMbps`: `getLimits(instanceType).networkThroughput`. -/
def getMaxNetworkMbps (instanceType : String) : Except Panic Int := do
  let l ← getLimits instanceType
  pure l.networkThroughput

/-- The conversion `uint64(x)` of a Go `int`: the value modulo `2 ^ 64`. -/
def uint64 (x : Int) : Nat := (x % (2 : Int) ^ 64).toNat

/-- Multiplication of two `uint64` values: the product modulo `2 ^ 64`. -/
def mulU64 (a b : Nat) : Nat := (a * b) % 2 ^ 64

/-- The function `GetMaxNetworkbps`: `uint64(getMaxNetworkMbps(instanceType)) * 1000 * 1000`,
each product taken in `uint64`. -/
def GetMaxNetworkbps (instanceType : String) : Except Panic Nat := do
  let mbps ← getMaxNetworkMbps instanceType
  pure (mulU64 (mulU64 (uint64 mbps) 1000) 1000)

/-- Every `(family, subtype, record)` triple of `interfaceLimits`, in table order. -/
def tableEntries : List (String × String × limits) :=
  interfaceLimits.flatMap (fun fam => fam.2.map (fun sub => (fam.1, sub.1, sub.2)))

/-! ## Helper lemmas -/

theorem lookup_mem {β : Type} (k : String) (b : β) (l : List (String × β))
    (h : l.lookup k = some b) : (k, b) ∈ l := by
  induction l with
  | nil => simp [List.lookup] at h
  | cons p ps ih =>
    obtain ⟨k1, b1⟩ := p
    by_cases hk : k = k1
    · subst hk
      simp [List.lookup] at h
      simp [h]
    · have hb : (k == k1) = false := by simpa using hk
      simp [List.lookup, hb] at h
      exact List.mem_cons_of_mem _ (ih h)

theorem mem_tableEntries (family subtype : String) (subtypes : List (String × limits))
    (rec : limits) (hf : interfaceLimits.lookup family = some subtypes)
    (hs : subtypes.lookup subtype = some rec) : (family, subtype, rec) ∈ tableEntries := by
  unfold tableEntries
  rw [List.mem_flatMap]
  exact ⟨(family, subtypes), lookup_mem _ _ _ hf,
    List.mem_map.mpr ⟨(subtype, rec), lookup_mem _ _ _ hs, rfl⟩⟩

theorem splitChars_of_not_mem (sep : Char) (l : List Char) (h : sep ∉ l) :
    splitChars sep l = (l, []) := by
  induction l with
  | nil => rfl
  | cons c cs ih =>
    have hc : c ≠ sep := fun e => h (by simp [e])
    have hcs : sep ∉ cs := fun m => h (List.mem_cons_of_mem _ m)
    simp [splitChars, hc, ih hcs]

theorem splitChars_append_sep (sep : Char) (l rest : List Char) (h : sep ∉ l) :
    splitChars sep (l ++ sep :: rest)
      = (l, (splitChars sep rest).1 :: (splitChars sep rest).2) := by
  induction l with
  | nil => simp [splitChars]
  | cons c cs ih =>
    have hc : c ≠ sep := fun e => h (by simp [e])
    have hcs : sep ∉ cs := fun m => h (List.mem_cons_of_mem _ m)
    simp [splitChars, hc, ih hcs]

/-- An input without separator is a single segment. -/
theorem Split_of_not_mem (s : String) (h : '.' ∉ s.data) : Split s '.' = [s] := by
  simp [Split, splitChars_of_not_mem _ _ h]

/-- The first segment of `family ++ "." ++ rest` is `family` when `family` has no
separator, and the other segments are those of `rest`. -/
theorem Split_join (family rest : String) (h : '.' ∉ family.data) :
    Split (family ++ "." ++ rest) '.' = family :: Split rest '.' := by
  have hd : (family ++ "." ++ rest).data = family.data ++ '.' :: rest.data := by
    simp [String.data_append]
  simp [Split, hd, splitChars_append_sep _ _ _ h]

/-- What `getLimits` does on `family ++ "." ++ rest` when `family` has no separator: the
table is searched for `family`, then for the first segment of `rest`. -/
theorem getLimits_join (family rest : String) (h : '.' ∉ family.data) :
    getLimits (family ++ "." ++ rest) =
      match interfaceLimits.lookup family with
      | none => .error (.unknownFamily family)
      | some subtypes =>
        match subtypes.lookup (String.mk (splitChars '.' rest.data).1) with
        | none => .error (.unknownSubtype (String.mk (splitChars '.' rest.data).1))
        | some limits => .ok limits := by
  unfold getLimits
  rw [Split_join _ _ h]
  simp [Split]

/-- A record returned by `getLimits` is a record of the table. -/
theorem getLimits_ok_mem (instanceType : String) (rec : limits)
    (h : getLimits instanceType = .ok rec) :
    ∃ family subtype, (family, subtype, rec) ∈ tableEntries := by
  unfold getLimits at h
  simp only at h
  split at h
  · cases h
  · split at h
    · cases h
    · split at h
      · cases h
      · split at h
        · cases h
        · injection h with hrec
          subst hrec
          exact ⟨_, _, mem_tableEntries _ _ _ _ (by assumption) (by assumption)⟩

/-- The throughput of every record of the table lies between 0 and 23000 Mbps. -/
theorem tableEntries_throughput :
    ∀ e ∈ tableEntries, 0 ≤ e.2.2.networkThroughput ∧ e.2.2.networkThroughput ≤ 23000 := by
  decide

/-- The `uint64` computation `uint64(mbps) * 1000 * 1000` is exact as long as the exact
product is non-negative and below `2 ^ 64`. -/
theorem bps_no_wrap (mbps : Int) (h0 : 0 ≤ mbps) (h1 : mbps * 1000000 < (2 : Int) ^ 64) :
    ((mulU64 (mulU64 (uint64 mbps) 1000) 1000 : Nat) : Int) = mbps * 1000000 := by
  obtain ⟨n, rfl⟩ := Int.eq_ofNat_of_zero_le h0
  have hn : n * 1000000 < 2 ^ 64 := by omega
  have hu : uint64 (n : Int) = n := by
    unfold uint64
    rw [Int.emod_eq_of_lt (by omega) (by omega)]
    exact Int.toNat_ofNat n
  rw [hu]
  unfold mulU64
  have h2 : n * 1000 % 2 ^ 64 = n * 1000 := Nat.mod_eq_of_lt (by omega)
  rw [h2]
  have h3 : n * 1000 * 1000 % 2 ^ 64 = n * 1000000 := by
    rw [Nat.mod_eq_of_lt (by omega)]
    omega
  rw [h3]
  push_cast
  rfl

/-- Every triple of the table is found by `getLimits` under `family.subtype`, and its
record meets the field constraints of the data model. -/
theorem tableEntries_sound :
    ∀ e ∈ tableEntries,
      getLimits (e.1 ++ "." ++ e.2.1) = .ok e.2.2
        ∧ 1 ≤ e.2.2.interfaces ∧ 1 ≤ e.2.2.ipAddressesPerInterface
        ∧ 0 ≤ e.2.2.ip6AddressesPerInterface ∧ 0 < e.2.2.networkThroughput := by
  decide

/-! ## Lookup of the pairs of the table -/

/-- C1: for every (family, subtype) pair present in `interfaceLimits`, the call
`getLimits (family ++ "." ++ subtype)` does not panic and returns exactly the record stored
under that pair, and that record has `interfaces ≥ 1`, `ipAddressesPerInterface ≥ 1`,
`ip6AddressesPerInterface ≥ 0` and `networkThroughput > 0`. -/
theorem getLimits_table_pair (family subtype : String) (subtypes : List (String × limits))
    (rec : limits) (hfamily : interfaceLimits.lookup family = some subtypes)
    (hsubtype : subtypes.lookup subtype = some rec) :
    getLimits (family ++ "." ++ subtype) = .ok rec
      ∧ 1 ≤ rec.interfaces ∧ 1 ≤ rec.ipAddressesPerInterface
      ∧ 0 ≤ rec.ip6AddressesPerInterface ∧ 0 < rec.networkThroughput :=
  tableEntries_sound _ (mem_tableEntries family subtype subtypes rec hfamily hsubtype)

/-- The pair `("r4", "16xlarge")` is in the table and C1 holds for it. -/
theorem getLimits_table_pair_witness :
    (∃ subtypes, interfaceLimits.lookup "r4" = some subtypes
      ∧ subtypes.lookup "16xlarge" = some ⟨15, 50, 50, 15000⟩)
    ∧ getLimits ("r4" ++ "." ++ "16xlarge") = .ok ⟨15, 50, 50, 15000⟩
    ∧ (1 : Int) ≤ 15 ∧ (1 : Int) ≤ 50 ∧ (0 : Int) ≤ 50 ∧ (0 : Int) < 15000 :=
  ⟨⟨_, rfl, rfl⟩, getLimits_table_pair "r4" "16xlarge" _ ⟨15, 50, 50, 15000⟩ rfl rfl⟩

/-! ## Failures of the lookup -/

/-- C2: for every input `family ++ "." ++ subtype` with exactly one separator and two
non-empty parts, if `family` is not a key of `interfaceLimits` then `getLimits` panics with
the unknown-family failure, never with the unknown-subtype failure, whatever the subtype is
(also a subtype that is a key under some family, as in `zz9.xlarge`). -/
theorem getLimits_unknown_family (family subtype : String)
    (hfamily : '.' ∉ family.data) (_hsubtype : '.' ∉ subtype.data)
    (_hfamily_ne : family ≠ "") (_hsubtype_ne : subtype ≠ "")
    (hkey : interfaceLimits.lookup family = none) :
    getLimits (family ++ "." ++ subtype) = .error (.unknownFamily family)
      ∧ ∀ s, getLimits (family ++ "." ++ subtype) ≠ .error (.unknownSubtype s) := by
  have h : getLimits (family ++ "." ++ subtype) = .error (.unknownFamily family) := by
    rw [getLimits_join family subtype hfamily, hkey]
  refine ⟨h, fun s hs => ?_⟩
  rw [h] at hs
  cases hs

/-- The input `zz9.xlarge`: `zz9` is no family of the table, `xlarge` is a subtype of every
family of the table, and the failure is the unknown-family one. -/
theorem getLimits_unknown_family_witness :
    interfaceLimits.lookup "zz9" = none
    ∧ (∀ fam ∈ interfaceLimits, (fam.2.lookup "xlarge").isSome = true)
    ∧ getLimits ("zz9" ++ "." ++ "xlarge") = .error (.unknownFamily "zz9")
    ∧ ∀ s, getLimits ("zz9" ++ "." ++ "xlarge") ≠ .error (.unknownSubtype s) :=
  ⟨by decide, by decide,
    getLimits_unknown_family "zz9" "xlarge" (by decide) (by decide) (by decide) (by decide)
      (by decide)⟩

/-- C3: for every input `family ++ "." ++ subtype` with exactly one separator, if `family`
is a key of `interfaceLimits` and `subtype` is not a key of the subtypes of that family, then
`getLimits` panics with the unknown-subtype failure (as on `m4.99xlarge`). -/
theorem getLimits_unknown_subtype (family subtype : String)
    (subtypes : List (String × limits))
    (hfamily : '.' ∉ family.data) (hsubtype : '.' ∉ subtype.data)
    (hkey : interfaceLimits.lookup family = some subtypes)
    (hnone : subtypes.lookup subtype = none) :
    getLimits (family ++ "." ++ subtype) = .error (.unknownSubtype subtype) := by
  rw [getLimits_join family subtype hfamily, hkey]
  simp only [splitChars_of_not_mem _ _ hsubtype]
  rw [hnone]

/-- The input `m4.99xlarge`: `m4` is a family, `99xlarge` is none of its subtypes. -/
theorem getLimits_unknown_subtype_witness :
    (∃ subtypes, interfaceLimits.lookup "m4" = some subtypes
      ∧ subtypes.lookup "99xlarge" = none)
    ∧ getLimits ("m4" ++ "." ++ "99xlarge") = .error (.unknownSubtype "99xlarge") :=
  ⟨⟨_, rfl, rfl⟩,
    getLimits_unknown_subtype "m4" "99xlarge" _ (by decide) (by decide) rfl rfl⟩

/-- C4: for every input without the separator `.` (such as `m4xlarge`, and also `m4`, the
text of a known family), `getLimits` fails on reading `familyAndSubtype[1]` with the
index-out-of-range panic of a one-element slice: the failure of a malformed instance type.
It is neither the unknown-family nor the unknown-subtype failure, and no record is
returned. -/
theorem getLimits_no_separator (instanceType : String) (h : '.' ∉ instanceType.data) :
    getLimits instanceType = .error (.indexOutOfRange 1 1)
      ∧ (∀ family, getLimits instanceType ≠ .error (.unknownFamily family))
      ∧ (∀ subtype, getLimits instanceType ≠ .error (.unknownSubtype subtype))
      ∧ (∀ rec, getLimits instanceType ≠ .ok rec) := by
  have hp : getLimits instanceType = .error (.indexOutOfRange 1 1) := by
    unfold getLimits
    rw [Split_of_not_mem instanceType h]
    rfl
  refine ⟨hp, fun family hf => ?_, fun subtype hs => ?_, fun rec hr => ?_⟩
  · rw [hp] at hf
    cases hf
  · rw [hp] at hs
    cases hs
  · rw [hp] at hr
    cases hr

/-- The inputs `m4` and `m4xlarge` have no separator and fail as C4 says, although `m4` is a
family of the table. -/
theorem getLimits_no_separator_witness :
    '.' ∉ "m4".data ∧ (interfaceLimits.lookup "m4").isSome = true
    ∧ getLimits "m4" = .error (.indexOutOfRange 1 1)
    ∧ getLimits "m4xlarge" = .error (.indexOutOfRange 1 1) :=
  ⟨by decide, by decide, (getLimits_no_separator "m4" (by decide)).1,
    (getLimits_no_separator "m4xlarge" (by decide)).1⟩

/-- C5, as stated, fails: on `.xlarge`, whose family segment is empty, `getLimits` panics
with the unknown-family failure (for the empty family) and not with the index-out-of-range
failure of a malformed instance type. -/
theorem getLimits_empty_family_counterexample :
    getLimits ".xlarge" = .error (.unknownFamily "")
      ∧ getLimits ".xlarge" ≠ .error (.indexOutOfRange 1 1) := by
  decide

/-- C5, amended: for every input that begins with the separator (its family segment is
empty), `getLimits` panics with the unknown-family failure for the empty family, like for
any other family that is no key of the table; no record is returned. -/
theorem getLimits_empty_family (rest : String) :
    getLimits ("." ++ rest) = .error (.unknownFamily "")
      ∧ ∀ rec, getLimits ("." ++ rest) ≠ .ok rec := by
  have hj := getLimits_join "" rest (by decide)
  have he : ("" : String) ++ "." ++ rest = "." ++ rest := by
    apply String.ext
    simp [String.data_append]
  rw [he] at hj
  have hk : interfaceLimits.lookup "" = none := by decide
  rw [hk] at hj
  refine ⟨hj, fun rec hr => ?_⟩
  rw [hj] at hr
  cases hr

/-- C6: the input `m4.large.extra` has three segments `m4`, `large` and `extra`; the text
after its first separator, `large.extra`, is no subtype key of any family, and yet `getLimits`
does not panic: it reads the second segment `large` only and returns the record of
`m4.large`. -/
theorem getLimits_extra_segment :
    Split "m4.large.extra" '.' = ["m4", "large", "extra"]
      ∧ (∀ fam ∈ interfaceLimits, fam.2.lookup "large.extra" = none)
      ∧ getLimits "m4.large.extra" = .ok ⟨2, 10, 10, 100⟩ := by
  decide

/-! ## The accessors -/

/-- C7: for every instance type on which `getLimits` succeeds, `GetMaxNetworkbps` returns
exactly `getMaxNetworkMbps` times 1000000: the throughput of the record is non-negative, the
exact product is below `2 ^ 64`, and so the `uint64` computation never wraps around. -/
theorem GetMaxNetworkbps_exact (instanceType : String) (rec : limits)
    (h : getLimits instanceType = .ok rec) :
    getMaxNetworkMbps instanceType = .ok rec.networkThroughput
      ∧ 0 ≤ rec.networkThroughput ∧ rec.networkThroughput * 1000000 < (2 : Int) ^ 64
      ∧ ∃ bps : Nat, GetMaxNetworkbps instanceType = .ok bps
          ∧ (bps : Int) = rec.networkThroughput * 1000000 := by
  obtain ⟨family, subtype, hmem⟩ := getLimits_ok_mem instanceType rec h
  obtain ⟨h0, h1⟩ := tableEntries_throughput _ hmem
  simp only at h0 h1
  have hlt : rec.networkThroughput * 1000000 < (2 : Int) ^ 64 := by omega
  have hmbps : getMaxNetworkMbps instanceType = .ok rec.networkThroughput := by
    simp [getMaxNetworkMbps, h, bind, Except.bind, pure, Except.pure]
  refine ⟨hmbps, h0, hlt, _, ?_, bps_no_wrap _ h0 hlt⟩
  simp [GetMaxNetworkbps, hmbps, bind, Except.bind, pure, Except.pure]

/-- On `m4.16xlarge`, the entry of the largest throughput, the result is 23000000000. -/
theorem GetMaxNetworkbps_exact_witness :
    getLimits "m4.16xlarge" = .ok ⟨8, 30, 30, 23000⟩
    ∧ getMaxNetworkMbps "m4.16xlarge" = .ok 23000
    ∧ ∃ bps : Nat, GetMaxNetworkbps "m4.16xlarge" = .ok bps ∧ (bps : Int) = 23000 * 1000000 :=
  ⟨rfl, (GetMaxNetworkbps_exact "m4.16xlarge" ⟨8, 30, 30, 23000⟩ rfl).1,
    (GetMaxNetworkbps_exact "m4.16xlarge" ⟨8, 30, 30, 23000⟩ rfl).2.2.2⟩

/-- C8: for every input, each of `GetMaxInterfaces`, `GetMaxIPv4Addresses` and
`getMaxNetworkMbps` fails exactly when `getLimits` fails, and with the same failure; when
`getLimits` returns a record they return its fields `interfaces`, `ipAddressesPerInterface`
and `networkThroughput`. -/
theorem accessors_follow_getLimits (instanceType : String) :
    (∀ e, getLimits instanceType = .error e ↔ GetMaxInterfaces instanceType = .error e)
      ∧ (∀ e, getLimits instanceType = .error e ↔ GetMaxIPv4Addresses instanceType = .error e)
      ∧ (∀ e, getLimits instanceType = .error e ↔ getMaxNetworkMbps instanceType = .error e)
      ∧ (∀ rec, getLimits instanceType = .ok rec →
          GetMaxInterfaces instanceType = .ok rec.interfaces
            ∧ GetMaxIPv4Addresses instanceType = .ok rec.ipAddressesPerInterface
            ∧ getMaxNetworkMbps instanceType = .ok rec.networkThroughput) := by
  cases h : getLimits instanceType <;>
    simp [GetMaxInterfaces, GetMaxIPv4Addresses, getMaxNetworkMbps, h, bind, Except.bind,
      pure, Except.pure]

/-- The accessors on `r4.16xlarge`, where `getLimits` succeeds, and `GetMaxInterfaces` on
`m4`, where it fails. -/
theorem accessors_follow_getLimits_witness :
    (GetMaxInterfaces "r4.16xlarge" = .ok 15
      ∧ GetMaxIPv4Addresses "r4.16xlarge" = .ok 50
      ∧ getMaxNetworkMbps "r4.16xlarge" = .ok 15000)
    ∧ GetMaxInterfaces "m4" = .error (.indexOutOfRange 1 1) :=
  ⟨(accessors_follow_getLimits "r4.16xlarge").2.2.2 ⟨15, 50, 50, 15000⟩ rfl,
    ((accessors_follow_getLimits "m4").1 (.indexOutOfRange 1 1)).mp rfl⟩

/-! ## Concrete scenarios -/

/-- C9: `getLimits "m4.large"` succeeds and returns the record with `interfaces = 2`,
`ipAddressesPerInterface = 10`, `ip6AddressesPerInterface = 10` and
`networkThroughput = 100`. -/
theorem getLimits_m4_large :
    getLimits "m4.large"
      = .ok { interfaces := 2, ipAddressesPerInterface := 10, ip6AddressesPerInterface := 10,
              networkThroughput := 100 } := by
  decide

/-- C10: `GetMaxInterfaces "r4.16xlarge"` is 15, `GetMaxIPv4Addresses "p2.8xlarge"` is 30
and `GetMaxNetworkbps "m4.10xlarge"` is 10000000000. -/
theorem accessor_scenarios :
    GetMaxInterfaces "r4.16xlarge" = .ok 15
      ∧ GetMaxIPv4Addresses "p2.8xlarge" = .ok 30
      ∧ GetMaxNetworkbps "m4.10xlarge" = .ok 10000000000 := by
  decide

/-! ## The 64-bit result of `GetMaxNetworkbps` -/

/-- C11: the 64-bit result type of `GetMaxNetworkbps` is needed: on `m4.10xlarge`, an
instance type of the table, the result 10000000000 is greater than `2 ^ 32 - 1`, and the same
product reduced modulo `2 ^ 32` is 1410065408, which differs from the result. -/
theorem GetMaxNetworkbps_exceeds_32_bits :
    GetMaxNetworkbps "m4.10xlarge" = .ok 10000000000
      ∧ 2 ^ 32 - 1 < 10000000000
      ∧ 10000000000 % 2 ^ 32 = 1410065408
      ∧ GetMaxNetworkbps "m4.10xlarge" ≠ .ok (10000000000 % 2 ^ 32) := by
  decide

/-! ## The segments that `getLimits` reads -/

/-- When `getLimits` returns a record: its input has at least two segments, the first one is
a family of the table and the second one a subtype of that family, and the record is the one
stored under them. -/
theorem getLimits_ok_iff (instanceType : String) (rec : limits) :
    getLimits instanceType = .ok rec ↔
      ∃ family subtype rest subtypes,
        Split instanceType '.' = family :: subtype :: rest
          ∧ interfaceLimits.lookup family = some subtypes
          ∧ subtypes.lookup subtype = some rec := by
  unfold getLimits
  simp only
  generalize Split instanceType '.' = segments
  rcases segments with _ | ⟨family, _ | ⟨subtype, rest⟩⟩
  · simp
  · simp
  · cases hf : interfaceLimits.lookup family with
    | none => simp [hf]
    | some subtypes =>
      cases hs : subtypes.lookup subtype with
      | none => simp [hf, hs]
      | some found =>
        simp only [hf, hs, List.getElem?_cons_zero, List.getElem?_cons_succ, Except.ok.injEq]
        constructor
        · rintro rfl
          exact ⟨family, subtype, rest, subtypes, rfl, hf, hs⟩
        · rintro ⟨f, s, r, x, hl, hx, hr⟩
          injection hl with h1 hl
          injection hl with h2 _
          subst h1 h2
          rw [hf] at hx
          injection hx with hx
          subst hx
          rw [hs] at hr
          injection hr

/-- Two inputs with the same first two segments get the same result from `getLimits`, be it
a record or a panic. -/
theorem getLimits_congr_take (t1 t2 : String)
    (h : (Split t1 '.').take 2 = (Split t2 '.').take 2) : getLimits t1 = getLimits t2 := by
  unfold getLimits
  simp only
  generalize Split t1 '.' = l1 at h
  generalize Split t2 '.' = l2 at h
  rcases l1 with _ | ⟨a1, _ | ⟨b1, r1⟩⟩ <;> rcases l2 with _ | ⟨a2, _ | ⟨b2, r2⟩⟩ <;>
    simp_all

/-- The segments of `family.subtype.suffix` when neither `family` nor `subtype` has a
separator. -/
theorem Split_three (family subtype suffix : String)
    (hfamily : '.' ∉ family.data) (hsubtype : '.' ∉ subtype.data) :
    Split (family ++ "." ++ subtype ++ "." ++ suffix) '.'
      = family :: subtype :: Split suffix '.' := by
  have he : family ++ "." ++ subtype ++ "." ++ suffix
      = family ++ "." ++ (subtype ++ "." ++ suffix) := by
    apply String.ext
    simp [String.data_append]
  rw [he, Split_join _ _ hfamily, Split_join _ _ hsubtype]

/-- C12: `getLimits` returns a record exactly when the split of its input on every `.` has at
least two segments, the first a key of `interfaceLimits` and the second a key of the map of
that family, and the record is then the one stored under these two segments. Its result
depends on the first two segments only: whatever follows a second separator is ignored, so
that `getLimits "m4.large.anything"` is `getLimits "m4.large"`. -/
theorem getLimits_reads_two_segments :
    (∀ instanceType rec, getLimits instanceType = .ok rec ↔
        ∃ family subtype rest subtypes,
          Split instanceType '.' = family :: subtype :: rest
            ∧ interfaceLimits.lookup family = some subtypes
            ∧ subtypes.lookup subtype = some rec)
      ∧ (∀ t1 t2, (Split t1 '.').take 2 = (Split t2 '.').take 2 →
          getLimits t1 = getLimits t2)
      ∧ (∀ family subtype suffix : String, '.' ∉ family.data → '.' ∉ subtype.data →
          getLimits (family ++ "." ++ subtype ++ "." ++ suffix)
            = getLimits (family ++ "." ++ subtype))
      ∧ getLimits "m4.large.anything" = getLimits "m4.large" := by
  refine ⟨getLimits_ok_iff, getLimits_congr_take, ?_, by decide⟩
  intro family subtype suffix hfamily hsubtype
  apply getLimits_congr_take
  rw [Split_three family subtype suffix hfamily hsubtype, Split_join family subtype hfamily,
    Split_of_not_mem subtype hsubtype]
  rfl

/-- The input `m4.large.anything`: three segments, the record of `m4.large`, and the same
result as without the third segment. -/
theorem getLimits_reads_two_segments_witness :
    Split "m4.large.anything" '.' = ["m4", "large", "anything"]
    ∧ getLimits "m4.large.anything" = .ok ⟨2, 10, 10, 100⟩
    ∧ getLimits ("m4" ++ "." ++ "large" ++ "." ++ "anything")
        = getLimits ("m4" ++ "." ++ "large") :=
  ⟨by decide,
    (getLimits_reads_two_segments.1 "m4.large.anything" ⟨2, 10, 10, 100⟩).mpr
      ⟨"m4", "large", ["anything"], _, by decide, rfl, rfl⟩,
    getLimits_reads_two_segments.2.2.1 "m4" "large" "anything" (by decide) (by decide)⟩

/-! ## The keys of the 2x size -/

/-- C13: the table keys the 2x size as `2large`, not `2xlarge`: `getLimits` fails with the
unknown-subtype failure on `m4.2xlarge` and on `r4.2xlarge`, it returns a record on
`m4.2large` and on `r4.2large`, and no family of the table has a subtype key `2xlarge`. -/
theorem getLimits_2large_keys :
    getLimits "m4.2xlarge" = .error (.unknownSubtype "2xlarge")
      ∧ getLimits "r4.2xlarge" = .error (.unknownSubtype "2xlarge")
      ∧ getLimits "m4.2large" = .ok ⟨4, 15, 15, 1000⟩
      ∧ getLimits "r4.2large" = .ok ⟨4, 15, 15, 2000⟩
      ∧ ∀ fam ∈ interfaceLimits, fam.2.lookup "2xlarge" = none := by
  decide

end vpc
